import Mathlib

/-!
Verification development for the pi_lerobot repository: a shallow embedding of
the device scanner (select_teleop.py), the persisted-selection loaders
(startup.py, webserver.py), and the teleoperation process supervisor
(webserver.py), together with theorems settling the spec's claims.

Strings manipulated by the Python code are modelled as lists of characters
(`Str`), so that every operation is executable and kernel-reducible. Each
definition mirrors one Python function or block and is annotated with its
source location.
-/

namespace PiLerobot

/-- Character-list model of Python strings. -/
abbrev Str := List Char

/-- Convert a Lean string literal to the character-list model. -/
def str (s : String) : Str := s.toList

/-- Python `s.split(sep)` for a single-character separator: splitting the
empty string yields one empty chunk, and every separator occurrence starts a
new chunk. -/
def splitOnC (sep : Char) : Str → List Str
  | [] => [[]]
  | c :: rest =>
    if c = sep then [] :: splitOnC sep rest
    else
      match splitOnC sep rest with
      | [] => [[c]]
      | s :: ss => (c :: s) :: ss

/-- Characters stripped by Python `str.strip()` with no argument. -/
def isPySpace (c : Char) : Bool :=
  c == ' ' || c == '\t' || c == '\n' || c == '\r' || c == '\x0b' || c == '\x0c'

/-- Python `str.lstrip()`. -/
def lstrip (cs : Str) : Str := cs.dropWhile isPySpace

/-- Python `str.rstrip()`. -/
def rstrip (cs : Str) : Str := (cs.reverse.dropWhile isPySpace).reverse

/-- Python `str.strip()`: whitespace removed from both ends. -/
def pyStrip (cs : Str) : Str := rstrip (lstrip cs)

/-- Python `name.replace("tty_", "")`: removes every non-overlapping
occurrence of the four-character pattern, scanning left to right. The source
uses this to strip the `tty_` device prefix (select_teleop.py:39,
startup.py:94-95, webserver.py:61-62), but it removes interior occurrences as
well, which matters for claim C9. -/
def stripTty : Str → Str
  | 't' :: 't' :: 'y' :: '_' :: rest => stripTty rest
  | c :: rest => c :: stripTty rest
  | [] => []

/-- Python `Path(p).name`: the final path component. -/
def baseName (p : Str) : Str := (splitOnC '/' p).getLastD []

/-- One discovered device, as built by get_devices (select_teleop.py:18-54):
the tuple (nice_name, port_path, robot_type, symlink_name). -/
structure DeviceEntry where
  label : Str
  path : Str
  hardwareType : Str
  linkName : Str
deriving Repr, DecidableEq

/-- Classification of one directory entry by get_devices
(select_teleop.py:32-52): require the `tty_` prefix, strip it, split on
underscores, require at least 3 parts; the last part is the type, the
second-to-last the role, the rest joined is the label. Returns the role
(true for leader) and the entry, or none when the name is skipped. -/
def classify (name : Str) (resolved : Str) : Option (Bool × DeviceEntry) :=
  if (str "tty_").isPrefixOf name then
    let parts := splitOnC '_' (stripTty name)
    if parts.length < 3 then none
    else
      let robot_type := parts.getLastD []
      let role := parts.dropLast.getLastD []
      let nice_name := List.intercalate (str "_") parts.dropLast.dropLast
      if role = str "leader" then some (true, ⟨nice_name, resolved, robot_type, name⟩)
      else if role = str "follower" then some (false, ⟨nice_name, resolved, robot_type, name⟩)
      else none
  else none

/-- get_devices (select_teleop.py:18-54) over the sorted directory listing,
given as (symlink name, resolved path) pairs: returns (leaders, followers) in
traversal order. -/
def getDevices : List (Str × Str) → List DeviceEntry × List DeviceEntry
  | [] => ([], [])
  | (name, resolved) :: rest =>
    match classify name resolved with
    | some (true, e) => (e :: (getDevices rest).1, (getDevices rest).2)
    | some (false, e) => ((getDevices rest).1, e :: (getDevices rest).2)
    | none => getDevices rest

/-- Filesystem abstraction: the set of existing paths (full paths such as
"/dev/tty_arm1_follower_so101") and the content of the selection file
~/.lerobot_teleop_config (none when absent). -/
structure FS where
  existing : List Str
  config : Option Str
deriving Repr, DecidableEq

/-- Parsing of the two saved paths, the identical snippet of
webserver.py:61-71 and startup.py:94-104: basename, strip the `tty_`
occurrences, split on underscores, require at least 3 parts on both sides;
the type is the last part and the id joins all parts up to the last two.
Returns (follower_type, follower_id, leader_type, leader_id). -/
def parseSavedPair (saved_follower saved_leader : Str) :
    Option (Str × Str × Str × Str) :=
  let follower_parts := splitOnC '_' (stripTty (baseName saved_follower))
  let leader_parts := splitOnC '_' (stripTty (baseName saved_leader))
  if follower_parts.length ≥ 3 ∧ leader_parts.length ≥ 3 then
    some (follower_parts.getLastD [],
          List.intercalate (str "_") follower_parts.dropLast.dropLast,
          leader_parts.getLastD [],
          List.intercalate (str "_") leader_parts.dropLast.dropLast)
  else none

/-- The effective selection produced by startup.py start_teleoperation
(lines 69-140): ports plus the derived type/id strings. -/
structure ResolvedPair where
  follower_port : Str
  leader_port : Str
  follower_type : Str
  follower_id : Str
  leader_type : Str
  leader_id : Str
deriving Repr, DecidableEq

/-- The saved-configuration block of startup.py start_teleoperation
(lines 79-118): read the file, require at least 2 lines, require both
referenced paths to exist, parse both names. On a stale reference or an
unparseable name the file is deleted (config_file.unlink()); on an absent
file or fewer than 2 lines nothing is deleted. Returns the adopted saved
selection (none when use_saved_config stays false) and the filesystem after
any deletion. -/
def startupLoadSaved (fs : FS) : Option ResolvedPair × FS :=
  match fs.config with
  | none => (none, fs)
  | some content =>
    match splitOnC '\n' (pyStrip content) with
    | l0 :: l1 :: _ =>
      let saved_follower := pyStrip l0
      let saved_leader := pyStrip l1
      if saved_follower ∈ fs.existing ∧ saved_leader ∈ fs.existing then
        match parseSavedPair saved_follower saved_leader with
        | some (ft, fi, lt, li) =>
          (some ⟨saved_follower, saved_leader, ft, fi, lt, li⟩, fs)
        | none => (none, { fs with config := none })
      else (none, { fs with config := none })
    | _ => (none, fs)

/-- The resolution part of startup.py start_teleoperation (lines 69-140):
prefer the saved selection; otherwise fall back to /dev/tty_follower and
/dev/tty_leader with type so101 and id default, returning early (no child
spawned) when either default path is missing. A `some` result means the
teleoperation child is spawned with that pair; `none` means the function
returned without starting anything. -/
def startup_start_teleoperation (fs : FS) : Option ResolvedPair × FS :=
  match (startupLoadSaved fs).1 with
  | some pair => (some pair, (startupLoadSaved fs).2)
  | none =>
    if str "/dev/tty_follower" ∈ (startupLoadSaved fs).2.existing then
      if str "/dev/tty_leader" ∈ (startupLoadSaved fs).2.existing then
        (some ⟨str "/dev/tty_follower", str "/dev/tty_leader",
               str "so101", str "default", str "so101", str "default"⟩,
         (startupLoadSaved fs).2)
      else (none, (startupLoadSaved fs).2)
    else (none, (startupLoadSaved fs).2)

/-- Writing of the selection by select_teleop.py start_teleoperation
(lines 147-151): opens the file in write mode (overwriting any prior
content) and writes the two symlink paths, each terminated by a newline. -/
def saveSelection (follower_symlink leader_symlink : Str) (fs : FS) : FS :=
  { fs with config := some (str "/dev/" ++ follower_symlink ++ ['\n'] ++
                            str "/dev/" ++ leader_symlink ++ ['\n']) }

/-- Handle of a spawned child process. The alive flag models what
Popen.poll() reports: true while poll() returns None. -/
structure Proc where
  pid : Nat
  alive : Bool
deriving Repr, DecidableEq

/-- The shared global state of webserver.py (class RobotState,
lines 18-29). -/
structure RobotState where
  teleop_process : Option Proc
  teleop_mode : String
  devices_available : Bool
  follower_port : Option Str
  leader_port : Option Str
  follower_type : Option Str
  leader_type : Option Str
  follower_id : Option Str
  leader_id : Option Str
deriving Repr, DecidableEq

/-- The state constructed at module load (webserver.py:20-29,88). -/
def initState : RobotState :=
  ⟨none, "stopped", false, none, none, none, none, none, none⟩

/-- RobotState.is_running (webserver.py:31-35): false when no handle,
otherwise whether poll() still returns None. -/
def RobotState.is_running (s : RobotState) : Bool :=
  match s.teleop_process with
  | none => false
  | some p => p.alive

/-- Python truthiness of an optional string: `not x` is true when the value
is None or the empty string. -/
def pyFalsy : Option Str → Bool
  | none => true
  | some l => l.isEmpty

/-- Result of RobotState.load_device_config: the returned boolean, the
updated state, and the filesystem afterwards. The webserver loader performs
no filesystem writes, so the returned filesystem always equals the input;
it is part of the result so that the absence of the deletion side effect
(which startup.py does perform) can be stated. -/
structure LoadResult where
  ok : Bool
  state : RobotState
  fs : FS
deriving Repr, DecidableEq

/-- The saved-selection branch of RobotState.load_device_config
(webserver.py:52-76): the six values adopted when the file has at least 2
lines, both referenced paths exist and both names parse; none when any of
these fails (including a read exception, absorbed at lines 75-76). Returns
(follower_port, leader_port, follower_type, follower_id, leader_type,
leader_id). -/
def webSavedFields (fs : FS) : Option (Str × Str × Str × Str × Str × Str) :=
  match fs.config with
  | none => none
  | some content =>
    match splitOnC '\n' (pyStrip content) with
    | l0 :: l1 :: _ =>
      let saved_follower := pyStrip l0
      let saved_leader := pyStrip l1
      if saved_follower ∈ fs.existing ∧ saved_leader ∈ fs.existing then
        match parseSavedPair saved_follower saved_leader with
        | some (ft, fi, lt, li) =>
          some (saved_follower, saved_leader, ft, fi, lt, li)
        | none => none
      else none
    | _ => none

/-- RobotState.load_device_config (webserver.py:48-86): adopt the saved
selection when its branch succeeds; otherwise fall through to the defaults
block (lines 78-86), which unconditionally assigns /dev/tty_follower and
/dev/tty_leader with so101/default and returns whether both default paths
exist. The stale file is never deleted here. -/
def load_device_config (fs : FS) (s : RobotState) : LoadResult :=
  match webSavedFields fs with
  | some (fp, lp, ft, fi, lt, li) =>
    ⟨true,
     { s with follower_type := some ft, follower_id := some fi,
              leader_type := some lt, leader_id := some li,
              follower_port := some fp, leader_port := some lp },
     fs⟩
  | none =>
    ⟨decide (str "/dev/tty_follower" ∈ fs.existing ∧
             str "/dev/tty_leader" ∈ fs.existing),
     { s with follower_port := some (str "/dev/tty_follower"),
              leader_port := some (str "/dev/tty_leader"),
              follower_type := some (str "so101"),
              follower_id := some (str "default"),
              leader_type := some (str "so101"),
              leader_id := some (str "default") },
     fs⟩

/-- RobotState.refresh_state (webserver.py:37-46): records whether any
tty_* device exists under /dev and loads the configuration when no
follower port is set yet. -/
def refresh_state (fs : FS) (s : RobotState) : RobotState :=
  let s1 := { s with devices_available :=
                decide (fs.existing.filter
                  (fun p => (str "/dev/tty_").isPrefixOf p) ≠ []) }
  if pyFalsy s1.follower_port then (load_device_config fs s1).state else s1

/-- Result of webserver.py start_teleoperation: the returned boolean,
whether a new child was spawned, and the state afterwards. -/
structure StartResult where
  ok : Bool
  spawned : Bool
  state : RobotState
deriving Repr, DecidableEq

/-- start_teleoperation (webserver.py:97-167). Already running: return False
with no action. Missing ports: run load_device_config and return False if it
fails (its default assignments remain in the state). Then spawn;
spawnResult is the environment outcome, none meaning Popen (or anything in
the try block) raised, in which case the handler at lines 161-167 rolls the
state back to stopped. On success the handle is stored and the mode set.
The configuration step (lines 105-108) is split out as startCfg: when a
port is unset it runs load_device_config and propagates its boolean and its
state updates, otherwise it proceeds with the state unchanged. -/
def startCfg (fs : FS) (s : RobotState) : Bool × RobotState :=
  if pyFalsy s.follower_port || pyFalsy s.leader_port then
    ((load_device_config fs s).ok, (load_device_config fs s).state)
  else (true, s)

def start_teleoperation (fs : FS) (spawnResult : Option Nat)
    (s : RobotState) : StartResult :=
  if s.is_running then ⟨false, false, s⟩
  else
    if (startCfg fs s).1 = false then ⟨false, false, (startCfg fs s).2⟩
    else
      match spawnResult with
      | none =>
        ⟨false, false,
         { (startCfg fs s).2 with teleop_process := none,
                                  teleop_mode := "stopped" }⟩
      | some pid =>
        ⟨true, true,
         { (startCfg fs s).2 with teleop_process := some ⟨pid, true⟩,
                                  teleop_mode := "teleoperation" }⟩

/-- Liveness oracle for the graceful-stop loop: given the child behaviour
d (none = the child ignores termination; some k = its exit becomes
observable at the k-th poll after terminate), whether poll() at index
pollIdx reports the child as exited. -/
def childDead (d : Option Nat) (pollIdx : Nat) : Bool :=
  match d with
  | none => false
  | some k => decide (k ≤ pollIdx)

/-- The waiting loop of stop_teleoperation (webserver.py:182-185): up to 50
iterations, each polling once and sleeping 0.1 s when the child is still
alive. Arguments: remaining iterations and the number of polls already
performed; returns the number of sleeps executed. -/
def stopLoopSleeps (d : Option Nat) : Nat → Nat → Nat
  | 0, _ => 0
  | n + 1, done =>
    if childDead d done then 0 else 1 + stopLoopSleeps d n (done + 1)

/-- Result of stop_teleoperation: the returned boolean, whether terminate()
was sent, whether the forced kill() path ran, the number of 0.1 s sleeps
performed, and the state afterwards. -/
structure StopResult where
  ok : Bool
  terminateSent : Bool
  forcedKill : Bool
  sleeps : Nat
  state : RobotState
deriving Repr, DecidableEq

/-- stop_teleoperation (webserver.py:170-199). Not running: set the mode to
stopped (the handle is left untouched) and return False. Otherwise send
terminate(), run the 50-iteration 100 ms poll loop, escalate to kill() and
wait() when the final poll still reports the child alive, then clear the
handle, set the mode to stopped and return True. -/
def stop_teleoperation (d : Option Nat) (s : RobotState) : StopResult :=
  if s.is_running = false then
    ⟨false, false, false, 0, { s with teleop_mode := "stopped" }⟩
  else
    let sleeps := stopLoopSleeps d 50 0
    ⟨true, true, !childDead d sleeps, sleeps,
     { s with teleop_process := none, teleop_mode := "stopped" }⟩

/-- The status payload of /api/status (webserver.py:518-533). -/
structure StatusView where
  running : Bool
  mode : String
  devices_available : Bool
  pid : Option Nat
  follower_port : Option Str
  leader_port : Option Str
  follower_type : Option Str
  leader_type : Option Str
  follower_id : Option Str
  leader_id : Option Str
deriving Repr, DecidableEq

/-- api_status (webserver.py:518-533): refresh the state, then report
running from is_running, the stored mode, and the pid of the handle only
when is_running is true. Returns the view and the refreshed state. -/
def api_status (fs : FS) (s : RobotState) : StatusView × RobotState :=
  let s1 := refresh_state fs s
  (⟨s1.is_running, s1.teleop_mode, s1.devices_available,
    if s1.is_running then
      match s1.teleop_process with
      | some p => some p.pid
      | none => none
    else none,
    s1.follower_port, s1.leader_port, s1.follower_type, s1.leader_type,
    s1.follower_id, s1.leader_id⟩, s1)

/-- One event of a sequential execution against the shared state: a start
request (with its filesystem view and spawn outcome), a stop request (with
the child's termination behaviour), a status request, or the environment
event of the running child exiting on its own (observed by later poll()
calls). -/
inductive Event where
  | start (fs : FS) (spawnResult : Option Nat)
  | stop (d : Option Nat)
  | status (fs : FS)
  | childExit

/-- Effect of one event on the shared state. -/
def stepEvent (s : RobotState) : Event → RobotState
  | .start fs sp => (start_teleoperation fs sp s).state
  | .stop d => (stop_teleoperation d s).state
  | .status fs => (api_status fs s).2
  | .childExit =>
    match s.teleop_process with
    | some p => { s with teleop_process := some { p with alive := false } }
    | none => s

/-- Sequential execution of a list of events. -/
def runEvents (s : RobotState) : List Event → RobotState
  | [] => s
  | e :: es => runEvents (stepEvent s e) es

/-- The invariant of claim C2 as stated: the mode teleoperation implies a
handle is set, and the mode stopped implies the handle is cleared. -/
def invC2 (s : RobotState) : Prop :=
  (s.teleop_mode = "teleoperation" → s.teleop_process.isSome = true) ∧
  (s.teleop_mode = "stopped" → s.teleop_process = none)

instance (s : RobotState) : Decidable (invC2 s) := by
  unfold invC2
  infer_instance

/-- The amended invariant: the mode teleoperation implies a handle is set,
and the mode stopped implies the supervisor is not running (the handle is
cleared, or it refers to a child that has already exited). -/
def invC2Amended (s : RobotState) : Prop :=
  (s.teleop_mode = "teleoperation" → s.teleop_process.isSome = true) ∧
  (s.teleop_mode = "stopped" → s.is_running = false)

/-- One atomic assignment to the shared state, as performed with no lock by
the request handlers and the auto-start thread of webserver.py (the module
creates only threading.Thread objects and no lock). -/
def observeAfter (s : RobotState) (writes : List (RobotState → RobotState))
    (k : Nat) : RobotState :=
  (writes.take k).foldl (fun st w => w st) s

/-- The two unsynchronized state assignments of a successful start
(webserver.py:155-156), in program order. -/
def startCriticalWrites (p : Proc) : List (RobotState → RobotState) :=
  [fun st => { st with teleop_process := some p },
   fun st => { st with teleop_mode := "teleoperation" }]

/-- The two unsynchronized state assignments on the running path of stop
(webserver.py:193-194), in program order. -/
def stopCriticalWrites : List (RobotState → RobotState) :=
  [fun st => { st with teleop_process := none },
   fun st => { st with teleop_mode := "stopped" }]

/-- A concrete filesystem with both default devices present and no
persisted selection, used to instantiate hypothesis-bearing theorems. -/
def fsDefaults : FS := ⟨[str "/dev/tty_follower", str "/dev/tty_leader"], none⟩

/-- A concrete running supervisor state, used to instantiate
hypothesis-bearing theorems. -/
def runningState : RobotState :=
  { initState with teleop_process := some ⟨5, true⟩,
                   teleop_mode := "teleoperation" }

/-- A concrete state with both ports already configured, used to
instantiate hypothesis-bearing theorems. -/
def portsSetState : RobotState :=
  { initState with follower_port := some (str "/dev/tty_follower"),
                   leader_port := some (str "/dev/tty_leader") }

/-- A concrete filesystem with no devices and no persisted selection. -/
def emptyFS : FS := ⟨[], none⟩

/-- A concrete filesystem whose persisted selection references two paths
that no longer exist. -/
def staleFS : FS :=
  ⟨[], some (str "/dev/tty_gone_follower_so101\n/dev/tty_gone_leader_so101\n")⟩

/-- A concrete filesystem whose persisted selection has a single line. -/
def oneLineFS : FS := ⟨[], some (str "/dev/tty_gone_follower_so101")⟩

/-- A concrete filesystem in which both devices of a selected pair exist. -/
def fsRoundTrip : FS :=
  ⟨[str "/dev/tty_arm1_follower_so101", str "/dev/tty_ctrl1_leader_so101"],
   none⟩

/-- Characters acceptable in a device symlink name for the round-trip law:
no newline (would break the 2-line file format), no path separator (the
name is one path component) and no str.strip() whitespace. -/
def cleanChar (c : Char) : Bool :=
  !(c == '\n' || c == '/' || isPySpace c)

theorem load_device_config_proc (fs : FS) (s : RobotState) :
    (load_device_config fs s).state.teleop_process = s.teleop_process := by
  unfold load_device_config
  rcases webSavedFields fs with - | ⟨fp, lp, ft, fi, lt, li⟩ <;> rfl

theorem load_device_config_mode (fs : FS) (s : RobotState) :
    (load_device_config fs s).state.teleop_mode = s.teleop_mode := by
  unfold load_device_config
  rcases webSavedFields fs with - | ⟨fp, lp, ft, fi, lt, li⟩ <;> rfl

theorem load_device_config_fs (fs : FS) (s : RobotState) :
    (load_device_config fs s).fs = fs := by
  unfold load_device_config
  rcases webSavedFields fs with - | ⟨fp, lp, ft, fi, lt, li⟩ <;> rfl

theorem refresh_state_proc (fs : FS) (s : RobotState) :
    (refresh_state fs s).teleop_process = s.teleop_process := by
  unfold refresh_state
  dsimp only
  split
  · exact load_device_config_proc fs _
  · rfl

theorem refresh_state_mode (fs : FS) (s : RobotState) :
    (refresh_state fs s).teleop_mode = s.teleop_mode := by
  unfold refresh_state
  dsimp only
  split
  · exact load_device_config_mode fs _
  · rfl

theorem stopLoopSleeps_le (d : Option Nat) (n done : Nat) :
    stopLoopSleeps d n done ≤ n := by
  induction n generalizing done with
  | zero => exact Nat.le_refl 0
  | succ m ih =>
    unfold stopLoopSleeps
    split
    · exact Nat.zero_le _
    · have := ih (done + 1)
      omega

theorem stopLoopSleeps_none (n done : Nat) :
    stopLoopSleeps none n done = n := by
  induction n generalizing done with
  | zero => rfl
  | succ m ih =>
    unfold stopLoopSleeps
    rw [show childDead none done = false from rfl]
    simp only [Bool.false_eq_true, if_false]
    rw [ih (done + 1)]
    omega

theorem stopLoopSleeps_some (k n done : Nat) (h : done ≤ k) :
    stopLoopSleeps (some k) n done = min (k - done) n := by
  induction n generalizing done with
  | zero =>
    unfold stopLoopSleeps
    omega
  | succ m ih =>
    unfold stopLoopSleeps
    simp only [childDead, decide_eq_true_eq]
    split
    · omega
    · have hk : done + 1 ≤ k := by omega
      rw [ih (done + 1) hk]
      omega

theorem childDead_final (d : Option Nat) :
    childDead d (stopLoopSleeps d 50 0) = childDead d 50 := by
  cases d with
  | none => rfl
  | some k =>
    rw [stopLoopSleeps_some k 50 0 (Nat.zero_le k)]
    simp only [childDead]
    rw [decide_eq_decide]
    omega

/-- C1. webserver.py protects the shared RobotState with no lock (the module
creates only a threading.Thread for the auto-start routine at line 588 and
no mutex), so a status query scheduled between the two state assignments of
a start (lines 155-156) observes the child handle set while the mode still
reads "stopped", and one scheduled between the two assignments of a stop
(lines 193-194) observes mode "teleoperation" with the handle cleared —
both observations that the claim says can never occur. -/
theorem c1_unserialized_observation :
    (observeAfter initState (startCriticalWrites ⟨9, true⟩) 1).teleop_process
        = some ⟨9, true⟩
  ∧ (observeAfter initState (startCriticalWrites ⟨9, true⟩) 1).teleop_mode
        = "stopped"
  ∧ (observeAfter runningState stopCriticalWrites 1).teleop_process = none
  ∧ (observeAfter runningState stopCriticalWrites 1).teleop_mode
        = "teleoperation" := by
  exact ⟨by decide, by decide, by decide, by decide⟩

/-- C2 counterexample. A successful start, the child exiting on its own,
then a stop: stop's not-running branch (webserver.py:172-175) sets the mode
to "stopped" but leaves the dead handle in place, so the final state has
mode "stopped" with the child handle still set, violating the claimed
invariant. -/
theorem c2_counterexample :
    (runEvents initState
        [.start fsDefaults (some 42), .childExit, .stop (some 0)]).teleop_mode
      = "stopped"
  ∧ (runEvents initState
        [.start fsDefaults (some 42), .childExit, .stop (some 0)]).teleop_process
      = some ⟨42, false⟩
  ∧ ¬ invC2 (runEvents initState
        [.start fsDefaults (some 42), .childExit, .stop (some 0)]) := by
  refine ⟨by decide, by decide, by decide⟩

theorem startCfg_proc (fs : FS) (s : RobotState) :
    (startCfg fs s).2.teleop_process = s.teleop_process := by
  unfold startCfg
  split
  · exact load_device_config_proc fs s
  · rfl

theorem startCfg_mode (fs : FS) (s : RobotState) :
    (startCfg fs s).2.teleop_mode = s.teleop_mode := by
  unfold startCfg
  split
  · exact load_device_config_mode fs s
  · rfl

theorem stepEvent_preserves (s : RobotState) (e : Event)
    (h : invC2Amended s) : invC2Amended (stepEvent s e) := by
  obtain ⟨h1, h2⟩ := h
  cases e with
  | start fs sp =>
    show invC2Amended (start_teleoperation fs sp s).state
    unfold start_teleoperation
    split
    · exact ⟨h1, h2⟩
    · split
      · constructor
        · intro hm
          have hm2 : s.teleop_mode = "teleoperation" := by
            rw [← startCfg_mode fs s]
            exact hm
          show ((startCfg fs s).2.teleop_process).isSome = true
          rw [startCfg_proc]
          exact h1 hm2
        · intro hm
          have hm2 : s.teleop_mode = "stopped" := by
            rw [← startCfg_mode fs s]
            exact hm
          have hrun := h2 hm2
          show RobotState.is_running ((startCfg fs s).2) = false
          unfold RobotState.is_running at hrun ⊢
          rw [startCfg_proc]
          exact hrun
      · split
        · constructor
          · intro hm
            exact absurd (show ("stopped" : String) = "teleoperation" from hm)
              (by decide)
          · intro _
            rfl
        · constructor
          · intro _
            rfl
          · intro hm
            exact absurd (show ("teleoperation" : String) = "stopped" from hm)
              (by decide)
  | stop d =>
    show invC2Amended (stop_teleoperation d s).state
    unfold stop_teleoperation
    split
    · rename_i hr
      constructor
      · intro hm
        exact absurd (show ("stopped" : String) = "teleoperation" from hm)
          (by decide)
      · intro _
        show RobotState.is_running { s with teleop_mode := "stopped" } = false
        unfold RobotState.is_running at hr ⊢
        exact hr
    · constructor
      · intro hm
        exact absurd (show ("stopped" : String) = "teleoperation" from hm)
          (by decide)
      · intro _
        rfl
  | status fs =>
    show invC2Amended (api_status fs s).2
    have hp : (api_status fs s).2.teleop_process = s.teleop_process :=
      refresh_state_proc fs s
    have hm : (api_status fs s).2.teleop_mode = s.teleop_mode :=
      refresh_state_mode fs s
    constructor
    · intro h
      rw [hm] at h
      rw [hp]
      exact h1 h
    · intro h
      rw [hm] at h
      show RobotState.is_running _ = false
      unfold RobotState.is_running
      rw [hp]
      exact h2 h
  | childExit =>
    show invC2Amended (match s.teleop_process with
      | some p => { s with teleop_process := some { p with alive := false } }
      | none => s)
    rcases hq : s.teleop_process with - | p
    · exact ⟨h1, h2⟩
    · exact ⟨fun _ => rfl, fun _ => rfl⟩

/-- C2 amended. Over every sequence of operations from the initial stopped
state — start, stop, status (each with its environment outcomes) and the
child exiting on its own — the invariant that holds is: mode teleoperation
implies the handle is set, and mode stopped implies the supervisor is not
running, i.e. the handle is cleared or refers to an already-exited child.
The original claim's second half (handle cleared, None) fails because
stop's not-running branch keeps a dead handle. -/
theorem c2_invariant_amended (events : List Event) :
    invC2Amended (runEvents initState events) := by
  have general : ∀ (s : RobotState) (es : List Event), invC2Amended s →
      invC2Amended (runEvents s es) := by
    intro s es
    induction es generalizing s with
    | nil => exact fun h => h
    | cons e rest ih =>
      intro h
      exact ih (stepEvent s e) (stepEvent_preserves s e h)
  refine general initState events
    ⟨fun h => absurd (show ("stopped" : String) = "teleoperation" from h)
      (by decide), fun _ => rfl⟩

/-- C3. For every running child, stop sends the graceful termination
signal, sleeps 100 ms at most 50 times (the 5 s budget), breaking as soon
as a poll observes the exit; it escalates to the forced kill exactly when
the child is still alive after the 50-poll budget; and on return the handle
is cleared, the mode is "stopped" and the call reports success. -/
theorem c3_stop_graceful_then_forced (d : Option Nat) (s : RobotState)
    (h : s.is_running = true) :
    (stop_teleoperation d s).ok = true
  ∧ (stop_teleoperation d s).terminateSent = true
  ∧ (stop_teleoperation d s).sleeps = d.elim 50 (fun k => min k 50)
  ∧ (stop_teleoperation d s).sleeps ≤ 50
  ∧ (stop_teleoperation d s).forcedKill = !childDead d 50
  ∧ (stop_teleoperation d s).state.teleop_process = none
  ∧ (stop_teleoperation d s).state.teleop_mode = "stopped" := by
  unfold stop_teleoperation
  rw [h, if_neg (by decide : ¬ (true = false))]
  refine ⟨rfl, rfl, ?_, ?_, ?_, rfl, rfl⟩
  · cases d with
    | none => simpa using stopLoopSleeps_none 50 0
    | some k => simpa using stopLoopSleeps_some k 50 0 (Nat.zero_le k)
  · exact stopLoopSleeps_le d 50 0
  · show (!childDead d (stopLoopSleeps d 50 0)) = !childDead d 50
    rw [childDead_final]

/-- Witness for C3 at a concrete running state and a child that ignores the
graceful signal: 50 sleeps, forced kill, handle cleared, mode stopped. -/
theorem c3_witness :
    (stop_teleoperation none runningState).ok = true
  ∧ (stop_teleoperation none runningState).terminateSent = true
  ∧ (stop_teleoperation none runningState).sleeps = 50
  ∧ (stop_teleoperation none runningState).forcedKill = true
  ∧ (stop_teleoperation none runningState).state.teleop_process = none
  ∧ (stop_teleoperation none runningState).state.teleop_mode = "stopped" := by
  obtain ⟨a, b, c, -, e, f, g⟩ :=
    c3_stop_graceful_then_forced none runningState (by decide)
  exact ⟨a, b, c, e, f, g⟩

theorem start_already_running (fs : FS) (sp : Option Nat) (s : RobotState)
    (h : s.is_running = true) :
    start_teleoperation fs sp s = ⟨false, false, s⟩ := by
  unfold start_teleoperation
  rw [if_pos h]

theorem start_ok_state (fs : FS) (p : Nat) (s : RobotState)
    (h : (start_teleoperation fs (some p) s).ok = true) :
    (start_teleoperation fs (some p) s).state =
      { (startCfg fs s).2 with teleop_process := some ⟨p, true⟩,
                               teleop_mode := "teleoperation" } := by
  unfold start_teleoperation at h ⊢
  by_cases hr : s.is_running = true
  · rw [if_pos hr] at h
    exact Bool.noConfusion h
  · rw [if_neg hr] at h ⊢
    by_cases hc : (startCfg fs s).1 = false
    · rw [if_pos hc] at h
      exact Bool.noConfusion h
    · rw [if_neg hc]

/-- C4. Start is idempotent with respect to a running child
(webserver.py:99-101): whenever the child is running, a further start
returns False, spawns nothing and leaves the state unchanged; in
particular, two starts in a row from the initial state (the first
succeeding) spawn exactly one child, which is still the registered handle
after the second call. -/
theorem c4_start_idempotent :
    (∀ (fs : FS) (sp : Option Nat) (s : RobotState), s.is_running = true →
        start_teleoperation fs sp s = ⟨false, false, s⟩)
  ∧ (∀ (fs1 fs2 : FS) (p1 : Nat) (sp2 : Option Nat),
        (start_teleoperation fs1 (some p1) initState).ok = true →
        (start_teleoperation fs1 (some p1) initState).state.teleop_process
            = some ⟨p1, true⟩
        ∧ start_teleoperation fs2 sp2
              (start_teleoperation fs1 (some p1) initState).state
            = ⟨false, false,
               (start_teleoperation fs1 (some p1) initState).state⟩) := by
  constructor
  · exact fun fs sp s h => start_already_running fs sp s h
  · intro fs1 fs2 p1 sp2 hok
    have hst := start_ok_state fs1 p1 initState hok
    constructor
    · rw [hst]
    · refine start_already_running fs2 sp2 _ ?_
      rw [hst]
      rfl

/-- Witness for C4: with both default devices present, a start on a running
state is a no-op returning False, and a second start after a successful
first one leaves the single spawned child in place. -/
theorem c4_witness :
    start_teleoperation fsDefaults (some 7) runningState
        = ⟨false, false, runningState⟩
  ∧ ((start_teleoperation fsDefaults (some 5) initState).state.teleop_process
        = some ⟨5, true⟩
     ∧ start_teleoperation fsDefaults none
           (start_teleoperation fsDefaults (some 5) initState).state
         = ⟨false, false,
            (start_teleoperation fsDefaults (some 5) initState).state⟩) :=
  ⟨c4_start_idempotent.1 fsDefaults (some 7) runningState (by decide),
   c4_start_idempotent.2 fsDefaults fsDefaults 5 none (by decide)⟩

/-- C5. For every start call that reaches the spawn (the supervisor is not
running and the configuration step succeeds), a spawn failure — the
exception handler of webserver.py:161-167 — reports False to the caller,
spawns nothing, and rolls the state back to stopped: handle cleared, mode
"stopped". -/
theorem c5_spawn_failure_rollback (fs : FS) (s : RobotState)
    (h1 : s.is_running = false)
    (h2 : (startCfg fs s).1 = true) :
    (start_teleoperation fs none s).ok = false
  ∧ (start_teleoperation fs none s).spawned = false
  ∧ (start_teleoperation fs none s).state.teleop_process = none
  ∧ (start_teleoperation fs none s).state.teleop_mode = "stopped" := by
  unfold start_teleoperation
  rw [h1, if_neg (by decide : ¬ (false = true)),
      if_neg (by rw [h2]; decide : ¬ ((startCfg fs s).1 = false))]
  exact ⟨rfl, rfl, rfl, rfl⟩

/-- Witness for C5 at a concrete stopped, configured state: the failing
spawn reports False and the state is rolled back to stopped. -/
theorem c5_witness :
    (start_teleoperation fsDefaults none portsSetState).ok = false
  ∧ (start_teleoperation fsDefaults none portsSetState).spawned = false
  ∧ (start_teleoperation fsDefaults none portsSetState).state.teleop_process
        = none
  ∧ (start_teleoperation fsDefaults none portsSetState).state.teleop_mode
        = "stopped" :=
  c5_spawn_failure_rollback fsDefaults portsSetState (by decide) (by decide)

/-- C10. For every status query, the reported pid is non-null exactly when
the reported running flag is true, and a non-null pid is the pid of the
currently supervised, still-alive child (webserver.py:523,526). -/
theorem c10_pid_iff_running (fs : FS) (s : RobotState) :
    ((api_status fs s).1.pid.isSome = (api_status fs s).1.running)
  ∧ (∀ n : Nat, (api_status fs s).1.pid = some n →
      ∃ p, s.teleop_process = some p ∧ p.pid = n ∧ p.alive = true) := by
  have hp : (refresh_state fs s).teleop_process = s.teleop_process :=
    refresh_state_proc fs s
  constructor
  · show (if (refresh_state fs s).is_running then
          (match (refresh_state fs s).teleop_process with
           | some p => some p.pid
           | none => none)
         else none).isSome = (refresh_state fs s).is_running
    unfold RobotState.is_running
    rcases hq : (refresh_state fs s).teleop_process with - | p
    · decide
    · show (if p.alive = true then some p.pid else none).isSome = p.alive
      cases ha : p.alive <;> simp [ha]
  · intro n hn
    have hn1 : (if (refresh_state fs s).is_running then
          (match (refresh_state fs s).teleop_process with
           | some p => some p.pid
           | none => none)
         else none) = some n := hn
    unfold RobotState.is_running at hn1
    rcases hq : (refresh_state fs s).teleop_process with - | p
    · rw [hq] at hn1
      exact Option.noConfusion hn1
    · rw [hq] at hn1
      have hn2 : (if p.alive = true then some p.pid else none) = some n := hn1
      cases ha : p.alive with
      | false =>
        rw [ha] at hn2
        exact Option.noConfusion
          (show (none : Option Nat) = some n from hn2)
      | true =>
        rw [ha] at hn2
        have hn3 : some p.pid = some n :=
          (if_pos rfl : (if true = true then some p.pid else none)
              = some p.pid) ▸ hn2
        refine ⟨p, ?_, ?_, ha⟩
        · rw [← hp, hq]
        · exact Option.some.inj hn3

theorem splitOnC_ne_nil (sep : Char) (cs : Str) : splitOnC sep cs ≠ [] := by
  cases cs with
  | nil => simp [splitOnC]
  | cons c rest =>
    unfold splitOnC
    split
    · simp
    · rcases splitOnC sep rest with - | ⟨s, ss⟩ <;> simp

theorem splitOnC_not_mem (sep : Char) (cs : Str) (h : sep ∉ cs) :
    splitOnC sep cs = [cs] := by
  induction cs with
  | nil => rfl
  | cons c rest ih =>
    have hc : ¬ c = sep := fun he => h (he ▸ List.mem_cons_self c rest)
    have hr : sep ∉ rest := fun hm => h (List.mem_cons_of_mem c hm)
    unfold splitOnC
    rw [if_neg hc, ih hr]

theorem splitOnC_append (sep : Char) (a b : Str) (h : sep ∉ a) :
    splitOnC sep (a ++ sep :: b) = a :: splitOnC sep b := by
  induction a with
  | nil =>
    show splitOnC sep (sep :: b) = [] :: splitOnC sep b
    conv_lhs => unfold splitOnC
    rw [if_pos rfl]
  | cons c a2 ih =>
    have hc : ¬ c = sep := fun he => h (he ▸ List.mem_cons_self c a2)
    have ha : sep ∉ a2 := fun hm => h (List.mem_cons_of_mem c hm)
    show splitOnC sep (c :: (a2 ++ sep :: b)) = (c :: a2) :: splitOnC sep b
    conv_lhs => unfold splitOnC
    rw [if_neg hc, ih ha]

theorem lstrip_cons_of_neg (c : Char) (xs : Str) (h : isPySpace c = false) :
    lstrip (c :: xs) = c :: xs := by
  unfold lstrip
  simp [List.dropWhile_cons, h]

theorem rstrip_append_space (xs : Str) (c : Char) (h : isPySpace c = true) :
    rstrip (xs ++ [c]) = rstrip xs := by
  unfold rstrip
  rw [List.reverse_append]
  simp [List.dropWhile_cons, h]

theorem rstrip_eq_self (xs : Str)
    (h : ∀ c, xs.getLast? = some c → isPySpace c = false) :
    rstrip xs = xs := by
  rcases List.eq_nil_or_concat xs with hnil | ⟨a, c, hx⟩
  · subst hnil
    rfl
  · have hx2 : xs = a ++ [c] := by
      simpa [List.concat_eq_append] using hx
    subst hx2
    have hc : isPySpace c = false := h c (List.getLast?_concat a)
    unfold rstrip
    rw [List.reverse_append]
    simp [List.dropWhile_cons, hc]

/-- C6 counterexample. On a persisted selection referencing two now-deleted
paths, the service loader RobotState.load_device_config (webserver.py:48-86)
returns no saved selection but, contrary to the claim, performs no deletion:
the stale file is still present afterwards (the function has no unlink
call). -/
theorem c6_counterexample :
    (load_device_config staleFS initState).ok = false
  ∧ (load_device_config staleFS initState).fs.config
      = some (str "/dev/tty_gone_follower_so101\n/dev/tty_gone_leader_so101\n") :=
  ⟨by decide, by decide⟩

theorem startupLoadSaved_existing (fs : FS) :
    (startupLoadSaved fs).2.existing = fs.existing := by
  unfold startupLoadSaved
  rcases hc : fs.config with - | content
  · rfl
  · dsimp only
    rcases hs : splitOnC '\n' (pyStrip content) with - | ⟨x, t⟩
    · exact absurd hs (splitOnC_ne_nil '\n' (pyStrip content))
    · rcases t with - | ⟨y, t2⟩
      · rfl
      · dsimp only
        split
        · rcases parseSavedPair (pyStrip x) (pyStrip y) with - | ⟨ft, fi, lt, li⟩
          · rfl
          · rfl
        · rfl

/-- C6 amended. The deletion side effect belongs to the boot-time loader
only: startup.py's loader on a stale selection (a referenced path missing)
adopts nothing and unlinks the file, a second load on the absent file
returns nothing, and an absent or under-2-line file yields nothing without
deletion; the service loader (webserver.py load_device_config) likewise
adopts no saved selection on a stale file but never deletes it — it only
falls back to the default assignments and reports whether those defaults
exist. -/
theorem c6_load_stale_amended :
    (∀ (fs : FS) (content l0 l1 : Str) (rest : List Str),
        fs.config = some content →
        splitOnC '\n' (pyStrip content) = l0 :: l1 :: rest →
        ¬(pyStrip l0 ∈ fs.existing ∧ pyStrip l1 ∈ fs.existing) →
        startupLoadSaved fs = (none, { fs with config := none }))
  ∧ (∀ fs : FS, fs.config = none → startupLoadSaved fs = (none, fs))
  ∧ (∀ (fs : FS) (content : Str), fs.config = some content →
        (splitOnC '\n' (pyStrip content)).length < 2 →
        startupLoadSaved fs = (none, fs))
  ∧ (∀ (fs : FS) (s : RobotState) (content l0 l1 : Str) (rest : List Str),
        fs.config = some content →
        splitOnC '\n' (pyStrip content) = l0 :: l1 :: rest →
        ¬(pyStrip l0 ∈ fs.existing ∧ pyStrip l1 ∈ fs.existing) →
        (load_device_config fs s).ok =
            decide (str "/dev/tty_follower" ∈ fs.existing ∧
                    str "/dev/tty_leader" ∈ fs.existing)
        ∧ (load_device_config fs s).fs = fs
        ∧ (load_device_config fs s).state.follower_port
            = some (str "/dev/tty_follower")) := by
  refine ⟨?_, ?_, ?_, ?_⟩
  · intro fs content l0 l1 rest hcfg hsplit hnex
    unfold startupLoadSaved
    rw [hcfg]
    dsimp only
    rw [hsplit]
    dsimp only
    rw [if_neg hnex]
  · intro fs hcfg
    unfold startupLoadSaved
    rw [hcfg]
  · intro fs content hcfg hlen
    unfold startupLoadSaved
    rw [hcfg]
    dsimp only
    rcases hl : splitOnC '\n' (pyStrip content) with - | ⟨x, t⟩
    · exact absurd hl (splitOnC_ne_nil '\n' (pyStrip content))
    · rcases t with - | ⟨y, t2⟩
      · rfl
      · rw [hl] at hlen
        exact absurd hlen (by simp only [List.length_cons]; omega)
  · intro fs s content l0 l1 rest hcfg hsplit hnex
    have hw : webSavedFields fs = none := by
      unfold webSavedFields
      rw [hcfg]
      dsimp only
      rw [hsplit]
      dsimp only
      rw [if_neg hnex]
    unfold load_device_config
    rw [hw]
    exact ⟨rfl, rfl, rfl⟩

/-- Witness for C6 amended: a stale two-path selection is deleted by the
startup loader; a second load on the absent file, and a one-line file,
return nothing without deletion; the service loader on the same stale file
reports failure, keeps the file, and caches the default follower port. -/
theorem c6_witness :
    startupLoadSaved staleFS = (none, { staleFS with config := none })
  ∧ startupLoadSaved emptyFS = (none, emptyFS)
  ∧ startupLoadSaved oneLineFS = (none, oneLineFS)
  ∧ ((load_device_config staleFS initState).ok =
        decide (str "/dev/tty_follower" ∈ staleFS.existing ∧
                str "/dev/tty_leader" ∈ staleFS.existing)
     ∧ (load_device_config staleFS initState).fs = staleFS
     ∧ (load_device_config staleFS initState).state.follower_port
        = some (str "/dev/tty_follower")) :=
  ⟨c6_load_stale_amended.1 staleFS
      (str "/dev/tty_gone_follower_so101\n/dev/tty_gone_leader_so101\n")
      (str "/dev/tty_gone_follower_so101") (str "/dev/tty_gone_leader_so101")
      [] (by decide) (by decide) (by decide),
   c6_load_stale_amended.2.1 emptyFS (by decide),
   c6_load_stale_amended.2.2.1 oneLineFS
      (str "/dev/tty_gone_follower_so101") (by decide) (by decide),
   c6_load_stale_amended.2.2.2 staleFS initState
      (str "/dev/tty_gone_follower_so101\n/dev/tty_gone_leader_so101\n")
      (str "/dev/tty_gone_follower_so101") (str "/dev/tty_gone_leader_so101")
      [] (by decide) (by decide) (by decide)⟩

/-- C8 counterexample. With no persisted selection and neither default
device present, the first start fails and spawns nothing — but its
load_device_config call has cached the nonexistent default ports in the
state, so a second start skips resolution entirely and spawns a child,
although neither the persisted nor the default branch ever yielded an
existing pair (existing = []). -/
theorem c8_counterexample :
    (start_teleoperation emptyFS (some 41) initState).ok = false
  ∧ (start_teleoperation emptyFS (some 41) initState).spawned = false
  ∧ (start_teleoperation emptyFS (some 41) initState).state.follower_port
      = some (str "/dev/tty_follower")
  ∧ (start_teleoperation emptyFS (some 42)
        (start_teleoperation emptyFS (some 41) initState).state).spawned = true
  ∧ (start_teleoperation emptyFS (some 42)
        (start_teleoperation emptyFS (some 41) initState).state).ok = true :=
  ⟨by decide, by decide, by decide, by decide, by decide⟩

/-- C8 amended. In the boot flow the fallback is sound: when no saved
selection is adopted, the default pair (so101/default) is used exactly when
both default paths exist, and otherwise no child is started. In the service,
load_device_config assigns the default ports unconditionally and only
reports their existence through its return value: a start whose in-call
load fails starts no child in that call, but the cached defaults make any
later start (ports set, not running) spawn with no existence check at
all. -/
theorem c8_default_fallback_amended :
    (∀ fs : FS, (startupLoadSaved fs).1 = none →
        str "/dev/tty_follower" ∈ fs.existing →
        str "/dev/tty_leader" ∈ fs.existing →
        (startup_start_teleoperation fs).1 =
          some ⟨str "/dev/tty_follower", str "/dev/tty_leader",
                str "so101", str "default", str "so101", str "default"⟩)
  ∧ (∀ fs : FS, (startupLoadSaved fs).1 = none →
        ¬(str "/dev/tty_follower" ∈ fs.existing ∧
          str "/dev/tty_leader" ∈ fs.existing) →
        (startup_start_teleoperation fs).1 = none)
  ∧ (∀ (fs : FS) (sp : Option Nat) (s : RobotState),
        s.is_running = false → (startCfg fs s).1 = false →
        start_teleoperation fs sp s = ⟨false, false, (startCfg fs s).2⟩)
  ∧ (∀ (fs : FS) (s : RobotState), (load_device_config fs s).ok = false →
        (load_device_config fs s).state.follower_port
            = some (str "/dev/tty_follower")
        ∧ (load_device_config fs s).state.leader_port
            = some (str "/dev/tty_leader"))
  ∧ (∀ (fs : FS) (p : Nat) (s : RobotState),
        s.is_running = false → pyFalsy s.follower_port = false →
        pyFalsy s.leader_port = false →
        (start_teleoperation fs (some p) s).spawned = true
        ∧ (start_teleoperation fs (some p) s).ok = true) := by
  refine ⟨?_, ?_, ?_, ?_, ?_⟩
  · intro fs hnone hf hl
    unfold startup_start_teleoperation
    rw [hnone, startupLoadSaved_existing, if_pos hf, if_pos hl]
  · intro fs hnone hnex
    unfold startup_start_teleoperation
    rw [hnone, startupLoadSaved_existing]
    by_cases hf : str "/dev/tty_follower" ∈ fs.existing
    · rw [if_pos hf, if_neg (fun hl => hnex ⟨hf, hl⟩)]
    · rw [if_neg hf]
  · intro fs sp s h1 h2
    unfold start_teleoperation
    rw [h1, if_neg (by decide : ¬ (false = true)), if_pos h2]
  · intro fs s hok
    unfold load_device_config at hok ⊢
    rcases hw : webSavedFields fs with - | ⟨fp, lp, ft, fi, lt, li⟩
    · exact ⟨rfl, rfl⟩
    · rw [hw] at hok
      exact Bool.noConfusion hok
  · intro fs p s h1 h2 h3
    unfold start_teleoperation
    rw [h1, if_neg (by decide : ¬ (false = true))]
    rw [if_neg (show ¬ ((startCfg fs s).1 = false) by
      unfold startCfg
      rw [h2, h3, if_neg (by decide : ¬ ((false || false) = true))]
      exact fun hh => Bool.noConfusion hh)]
    exact ⟨rfl, rfl⟩

/-- Witness for C8 amended: with both defaults present the boot flow
resolves to the default so101/default pair; with no devices it starts
nothing; the service's failing start performs no spawn but caches the
default ports, after which a start with cached ports spawns even though no
device exists. -/
theorem c8_witness :
    (startup_start_teleoperation fsDefaults).1 =
        some ⟨str "/dev/tty_follower", str "/dev/tty_leader",
              str "so101", str "default", str "so101", str "default"⟩
  ∧ (startup_start_teleoperation emptyFS).1 = none
  ∧ start_teleoperation emptyFS (some 41) initState
      = ⟨false, false, (startCfg emptyFS initState).2⟩
  ∧ ((load_device_config emptyFS initState).state.follower_port
        = some (str "/dev/tty_follower")
     ∧ (load_device_config emptyFS initState).state.leader_port
        = some (str "/dev/tty_leader"))
  ∧ ((start_teleoperation emptyFS (some 42) portsSetState).spawned = true
     ∧ (start_teleoperation emptyFS (some 42) portsSetState).ok = true) :=
  ⟨c8_default_fallback_amended.1 fsDefaults (by decide) (by decide) (by decide),
   c8_default_fallback_amended.2.1 emptyFS (by decide) (by decide),
   c8_default_fallback_amended.2.2.1 emptyFS (some 41) initState
      (by decide) (by decide),
   c8_default_fallback_amended.2.2.2.1 emptyFS initState (by decide),
   c8_default_fallback_amended.2.2.2.2 emptyFS 42 portsSetState
      (by decide) (by decide) (by decide)⟩

/-- C9 counterexample. The name tty_tty_leader_so101 is well formed per the
claim: after the prefix the underscore segments are tty, leader, so101 —
three segments with role leader — so the claim places it in the leaders
list with label tty and type so101. The scanner instead drops it from both
lists, because name.replace at select_teleop.py:39 removes every
occurrence of the four characters of the prefix, leaving only two
segments. -/
theorem c9_counterexample :
    str "tty_tty_leader_so101" = str "tty_" ++ str "tty_leader_so101"
  ∧ splitOnC '_' (str "tty_leader_so101")
      = [str "tty", str "leader", str "so101"]
  ∧ getDevices [(str "tty_tty_leader_so101", str "/dev/ttyACM0")] = ([], []) :=
  ⟨by decide, by decide, by decide⟩

theorem classify_linkName (name path : Str) (b : Bool) (e : DeviceEntry)
    (h : classify name path = some (b, e)) : e.linkName = name := by
  unfold classify at h
  by_cases hp : (str "tty_").isPrefixOf name = true
  · rw [if_pos hp] at h
    by_cases hl : (splitOnC '_' (stripTty name)).length < 3
    · rw [if_pos hl] at h
      exact Option.noConfusion h
    · rw [if_neg hl] at h
      by_cases hr1 : (splitOnC '_' (stripTty name)).dropLast.getLastD []
          = str "leader"
      · rw [if_pos hr1] at h
        simp only [Option.some.injEq, Prod.mk.injEq] at h
        rw [← h.2]
      · rw [if_neg hr1] at h
        by_cases hr2 : (splitOnC '_' (stripTty name)).dropLast.getLastD []
            = str "follower"
        · rw [if_pos hr2] at h
          simp only [Option.some.injEq, Prod.mk.injEq] at h
          rw [← h.2]
        · rw [if_neg hr2] at h
          exact Option.noConfusion h
  · rw [if_neg hp] at h
    exact Option.noConfusion h

theorem mem_getDevices_leaders_intro (ds : List (Str × Str))
    (name path : Str) (e : DeviceEntry)
    (hmem : (name, path) ∈ ds) (hc : classify name path = some (true, e)) :
    e ∈ (getDevices ds).1 := by
  induction ds with
  | nil => cases hmem
  | cons hd tl ih =>
    obtain ⟨n2, p2⟩ := hd
    rcases List.mem_cons.mp hmem with heq | hmem2
    · obtain ⟨hn, hp⟩ := Prod.mk.injEq .. ▸ heq
      subst hn
      subst hp
      unfold getDevices
      rw [hc]
      exact List.mem_cons_self e _
    · have htail := ih hmem2
      unfold getDevices
      rcases hcc : classify n2 p2 with - | ⟨b, e2⟩
      · exact htail
      · rcases b with - | -
        · exact htail
        · exact List.mem_cons_of_mem e2 htail

theorem mem_getDevices_followers_intro (ds : List (Str × Str))
    (name path : Str) (e : DeviceEntry)
    (hmem : (name, path) ∈ ds) (hc : classify name path = some (false, e)) :
    e ∈ (getDevices ds).2 := by
  induction ds with
  | nil => cases hmem
  | cons hd tl ih =>
    obtain ⟨n2, p2⟩ := hd
    rcases List.mem_cons.mp hmem with heq | hmem2
    · obtain ⟨hn, hp⟩ := Prod.mk.injEq .. ▸ heq
      subst hn
      subst hp
      unfold getDevices
      rw [hc]
      exact List.mem_cons_self e _
    · have htail := ih hmem2
      unfold getDevices
      rcases hcc : classify n2 p2 with - | ⟨b, e2⟩
      · exact htail
      · rcases b with - | -
        · exact List.mem_cons_of_mem e2 htail
        · exact htail

theorem mem_getDevices_leaders_elim (ds : List (Str × Str)) (e : DeviceEntry)
    (h : e ∈ (getDevices ds).1) :
    ∃ name path, (name, path) ∈ ds ∧ classify name path = some (true, e) := by
  induction ds with
  | nil => cases h
  | cons hd tl ih =>
    obtain ⟨n2, p2⟩ := hd
    unfold getDevices at h
    rcases hcc : classify n2 p2 with - | ⟨b, e2⟩
    · rw [hcc] at h
      obtain ⟨n, p, hm, hc⟩ := ih h
      exact ⟨n, p, List.mem_cons_of_mem _ hm, hc⟩
    · rw [hcc] at h
      rcases b with - | -
      · obtain ⟨n, p, hm, hc⟩ := ih h
        exact ⟨n, p, List.mem_cons_of_mem _ hm, hc⟩
      · rcases List.mem_cons.mp h with heq | hm2
        · exact ⟨n2, p2, List.mem_cons_self _ _, heq ▸ hcc⟩
        · obtain ⟨n, p, hm, hc⟩ := ih hm2
          exact ⟨n, p, List.mem_cons_of_mem _ hm, hc⟩

theorem mem_getDevices_followers_elim (ds : List (Str × Str))
    (e : DeviceEntry) (h : e ∈ (getDevices ds).2) :
    ∃ name path, (name, path) ∈ ds ∧ classify name path = some (false, e) := by
  induction ds with
  | nil => cases h
  | cons hd tl ih =>
    obtain ⟨n2, p2⟩ := hd
    unfold getDevices at h
    rcases hcc : classify n2 p2 with - | ⟨b, e2⟩
    · rw [hcc] at h
      obtain ⟨n, p, hm, hc⟩ := ih h
      exact ⟨n, p, List.mem_cons_of_mem _ hm, hc⟩
    · rw [hcc] at h
      rcases b with - | -
      · rcases List.mem_cons.mp h with heq | hm2
        · exact ⟨n2, p2, List.mem_cons_self _ _, heq ▸ hcc⟩
        · obtain ⟨n, p, hm, hc⟩ := ih hm2
          exact ⟨n, p, List.mem_cons_of_mem _ hm, hc⟩
      · obtain ⟨n, p, hm, hc⟩ := ih h
        exact ⟨n, p, List.mem_cons_of_mem _ hm, hc⟩

theorem classify_prefix_parts (name rest : Str) (path : Str)
    (hname : name = str "tty_" ++ rest) (hfree : stripTty rest = rest) :
    classify name path =
      (if (splitOnC '_' rest).length < 3 then none
       else if (splitOnC '_' rest).dropLast.getLastD [] = str "leader" then
         some (true, ⟨List.intercalate (str "_")
                        (splitOnC '_' rest).dropLast.dropLast, path,
                      (splitOnC '_' rest).getLastD [], name⟩)
       else if (splitOnC '_' rest).dropLast.getLastD [] = str "follower" then
         some (false, ⟨List.intercalate (str "_")
                         (splitOnC '_' rest).dropLast.dropLast, path,
                       (splitOnC '_' rest).getLastD [], name⟩)
       else none) := by
  have hpre : (str "tty_").isPrefixOf name = true := by
    rw [hname, List.isPrefixOf_iff_prefix]
    exact List.prefix_append _ _
  have hstrip : stripTty name = rest := by
    rw [hname]
    show stripTty ('t' :: 't' :: 'y' :: '_' :: rest) = rest
    rw [show stripTty ('t' :: 't' :: 'y' :: '_' :: rest) = stripTty rest
          from rfl]
    exact hfree
  unfold classify
  rw [if_pos hpre, hstrip]

/-- C9 amended. The scanner's placement law holds for well-formed names in
which the four-character prefix occurs only at the front (stripTty rest =
rest): such a name with at least 3 segments and role leader or follower is
placed in the matching list with hardwareType the last segment and label
the preceding segments joined; names with fewer than 3 segments or an
unrecognized role contribute no entry. Because the code strips every
occurrence of the prefix (select_teleop.py:39), names whose label contains
the prefix are mangled or dropped, which is what the counterexample
exhibits. -/
theorem c9_scanner_amended (ds : List (Str × Str)) (name rest path : Str)
    (segs : List Str)
    (hmem : (name, path) ∈ ds)
    (hname : name = str "tty_" ++ rest)
    (hfree : stripTty rest = rest)
    (hsegs : segs = splitOnC '_' rest) :
    (segs.length ≥ 3 → segs.dropLast.getLastD [] = str "leader" →
        (⟨List.intercalate (str "_") segs.dropLast.dropLast, path,
          segs.getLastD [], name⟩ : DeviceEntry) ∈ (getDevices ds).1)
  ∧ (segs.length ≥ 3 → segs.dropLast.getLastD [] = str "follower" →
        (⟨List.intercalate (str "_") segs.dropLast.dropLast, path,
          segs.getLastD [], name⟩ : DeviceEntry) ∈ (getDevices ds).2)
  ∧ ((segs.length < 3 ∨ (segs.dropLast.getLastD [] ≠ str "leader" ∧
        segs.dropLast.getLastD [] ≠ str "follower")) →
      ∀ e : DeviceEntry,
        e ∈ (getDevices ds).1 ∨ e ∈ (getDevices ds).2 →
        e.linkName ≠ name) := by
  subst hsegs
  refine ⟨?_, ?_, ?_⟩
  · intro hlen hrole
    refine mem_getDevices_leaders_intro ds name path _ hmem ?_
    rw [classify_prefix_parts name rest path hname hfree,
        if_neg (by omega), if_pos hrole]
  · intro hlen hrole
    refine mem_getDevices_followers_intro ds name path _ hmem ?_
    rw [classify_prefix_parts name rest path hname hfree,
        if_neg (by omega), if_neg (by rw [hrole]; decide), if_pos hrole]
  · intro hex e hein hlink
    have hnone : ∀ p2 : Str, classify name p2 = none := by
      intro p2
      rw [classify_prefix_parts name rest p2 hname hfree]
      rcases hex with hlen | ⟨hr1, hr2⟩
      · rw [if_pos hlen]
      · by_cases hlen : (splitOnC '_' rest).length < 3
        · rw [if_pos hlen]
        · rw [if_neg hlen, if_neg hr1, if_neg hr2]
    rcases hein with hein | hein
    · obtain ⟨n, p, -, hc⟩ := mem_getDevices_leaders_elim ds e hein
      have hn : e.linkName = n := classify_linkName n p true e hc
      rw [hlink] at hn
      rw [← hn] at hc
      rw [hnone p] at hc
      exact Option.noConfusion hc
    · obtain ⟨n, p, -, hc⟩ := mem_getDevices_followers_elim ds e hein
      have hn : e.linkName = n := classify_linkName n p false e hc
      rw [hlink] at hn
      rw [← hn] at hc
      rw [hnone p] at hc
      exact Option.noConfusion hc

/-- Witness for C9 amended: a prefix-free well-formed follower name is
placed in the followers list with the parsed label and type, and a name
with an unrecognized role yields no entry with its link name. -/
theorem c9_witness :
    (⟨str "arm1", str "/dev/ttyACM0", str "so101",
      str "tty_arm1_follower_so101"⟩ : DeviceEntry) ∈
      (getDevices [(str "tty_arm1_follower_so101", str "/dev/ttyACM0")]).2
  ∧ (∀ e : DeviceEntry,
      e ∈ (getDevices [(str "tty_x_boss_so101", str "/dev/ttyACM1")]).1 ∨
      e ∈ (getDevices [(str "tty_x_boss_so101", str "/dev/ttyACM1")]).2 →
      e.linkName ≠ str "tty_x_boss_so101") :=
  ⟨(c9_scanner_amended
      [(str "tty_arm1_follower_so101", str "/dev/ttyACM0")]
      (str "tty_arm1_follower_so101") (str "arm1_follower_so101")
      (str "/dev/ttyACM0") [str "arm1", str "follower", str "so101"]
      (by decide) (by decide) (by decide) (by decide)).2.1
      (by decide) (by decide),
   (c9_scanner_amended
      [(str "tty_x_boss_so101", str "/dev/ttyACM1")]
      (str "tty_x_boss_so101") (str "x_boss_so101")
      (str "/dev/ttyACM1") [str "x", str "boss", str "so101"]
      (by decide) (by decide) (by decide) (by decide)).2.2
      (Or.inr (by decide))⟩

/-- Witness for C10 at a concrete running state: the pid is reported
exactly when running, and equals the live child's pid. -/
theorem c10_witness :
    ((api_status fsDefaults runningState).1.pid.isSome
        = (api_status fsDefaults runningState).1.running)
  ∧ (∃ p, runningState.teleop_process = some p ∧ p.pid = 5 ∧ p.alive = true) :=
  ⟨(c10_pid_iff_running fsDefaults runningState).1,
   (c10_pid_iff_running fsDefaults runningState).2 5 (by decide)⟩

theorem cleanChar_mem (n : Str) (h : n.all cleanChar = true) (c : Char)
    (hc : c ∈ n) : isPySpace c = false ∧ c ≠ '\n' ∧ c ≠ '/' := by
  have h2 : cleanChar c = true := List.all_eq_true.mp h c hc
  simp only [cleanChar, Bool.not_eq_true', Bool.or_eq_false_iff,
    beq_eq_false_iff_ne, ne_eq] at h2
  exact ⟨h2.2, h2.1.1, h2.1.2⟩

theorem nl_not_mem_dev (n : Str) (h : n.all cleanChar = true) :
    '\n' ∉ str "/dev/" ++ n := by
  intro hm
  rcases List.mem_append.mp hm with hm | hm
  · exact absurd hm (by decide)
  · exact (cleanChar_mem n h '\n' hm).2.1 rfl

theorem getLast?_cons_ne (x : Char) (a : Str) (h : a ≠ []) :
    (x :: a).getLast? = a.getLast? := by
  cases a with
  | nil => exact absurd rfl h
  | cons y t => simp [List.getLast?]

theorem dev_getLast_nospace (n : Str) (h : n.all cleanChar = true) :
    ∀ c, (str "/dev/" ++ n).getLast? = some c → isPySpace c = false := by
  intro c hc
  rcases List.eq_nil_or_concat n with hnil | ⟨a, d, hn⟩
  · subst hnil
    have hv : (str "/dev/" ++ ([] : Str)).getLast? = some '/' := by decide
    have hcd : some ('/' : Char) = some c := hv.symm.trans hc
    rw [← Option.some.inj hcd]
    decide
  · have hn2 : n = a ++ [d] := by
      simpa [List.concat_eq_append] using hn
    subst hn2
    rw [show str "/dev/" ++ (a ++ [d]) = (str "/dev/" ++ a) ++ [d] from
          (List.append_assoc _ _ _).symm,
        List.getLast?_concat] at hc
    rw [← Option.some.inj hc]
    exact (cleanChar_mem _ h d
      (List.mem_append_right a (List.mem_singleton.mpr rfl))).1

theorem lstrip_dev (X : Str) :
    lstrip (str "/dev/" ++ X) = str "/dev/" ++ X := by
  rw [show str "/dev/" ++ X = ('/' : Char) :: (str "dev/" ++ X) from rfl,
      lstrip_cons_of_neg '/' _ (by decide)]

theorem pyStrip_dev (n : Str) (h : n.all cleanChar = true) :
    pyStrip (str "/dev/" ++ n) = str "/dev/" ++ n := by
  unfold pyStrip
  rw [lstrip_dev]
  exact rstrip_eq_self _ (dev_getLast_nospace n h)

theorem content_regroup (f l : Str) :
    str "/dev/" ++ f ++ ['\n'] ++ str "/dev/" ++ l ++ ['\n']
      = (str "/dev/" ++ f) ++ '\n' :: ((str "/dev/" ++ l) ++ ['\n']) := by
  simp [List.append_assoc]

theorem pyStrip_content (f l : Str) (_hf : f.all cleanChar = true)
    (hl : l.all cleanChar = true) :
    pyStrip ((str "/dev/" ++ f) ++ '\n' :: ((str "/dev/" ++ l) ++ ['\n']))
      = (str "/dev/" ++ f) ++ '\n' :: (str "/dev/" ++ l) := by
  unfold pyStrip
  rw [show (str "/dev/" ++ f) ++ '\n' :: ((str "/dev/" ++ l) ++ ['\n'])
        = str "/dev/" ++ (f ++ '\n' :: ((str "/dev/" ++ l) ++ ['\n']))
      from List.append_assoc _ _ _]
  rw [lstrip_dev]
  rw [show str "/dev/" ++ (f ++ '\n' :: ((str "/dev/" ++ l) ++ ['\n']))
        = ((str "/dev/" ++ f) ++ '\n' :: (str "/dev/" ++ l)) ++ ['\n'] by
      simp [List.append_assoc]]
  rw [rstrip_append_space _ '\n' (by decide)]
  refine rstrip_eq_self _ ?_
  intro c hc
  rw [List.getLast?_append_of_ne_nil _
        (by simp : ('\n' :: (str "/dev/" ++ l)) ≠ [])] at hc
  rw [getLast?_cons_ne '\n' _ (by simp [str])] at hc
  exact dev_getLast_nospace l hl c hc

theorem split_content (f l : Str) (hf : f.all cleanChar = true)
    (hl : l.all cleanChar = true) :
    splitOnC '\n' ((str "/dev/" ++ f) ++ '\n' :: (str "/dev/" ++ l))
      = [str "/dev/" ++ f, str "/dev/" ++ l] := by
  rw [splitOnC_append '\n' _ _ (nl_not_mem_dev f hf),
      splitOnC_not_mem '\n' _ (nl_not_mem_dev l hl)]

theorem baseName_dev (n : Str) (h : n.all cleanChar = true) :
    baseName (str "/dev/" ++ n) = n := by
  unfold baseName
  have hslash : '/' ∉ n := fun hm => (cleanChar_mem n h '/' hm).2.2 rfl
  rw [show str "/dev/" ++ n = ('/' : Char) :: (str "dev" ++ '/' :: n) from rfl]
  have h1 : splitOnC '/' (('/' : Char) :: (str "dev" ++ '/' :: n))
      = [] :: splitOnC '/' (str "dev" ++ '/' :: n) := by
    have h0 := splitOnC_append '/' [] (str "dev" ++ '/' :: n) (by simp)
    simpa using h0
  rw [h1, splitOnC_append '/' (str "dev") n (by decide),
      splitOnC_not_mem '/' n hslash]
  rfl

theorem parseSavedPair_dev (f l : Str)
    (hfc : f.all cleanChar = true) (hlc : l.all cleanChar = true)
    (hfp : (splitOnC '_' (stripTty f)).length ≥ 3)
    (hlp : (splitOnC '_' (stripTty l)).length ≥ 3) :
    parseSavedPair (str "/dev/" ++ f) (str "/dev/" ++ l)
      = some ((splitOnC '_' (stripTty f)).getLastD [],
              List.intercalate (str "_")
                (splitOnC '_' (stripTty f)).dropLast.dropLast,
              (splitOnC '_' (stripTty l)).getLastD [],
              List.intercalate (str "_")
                (splitOnC '_' (stripTty l)).dropLast.dropLast) := by
  unfold parseSavedPair
  rw [baseName_dev f hfc, baseName_dev l hlc, if_pos ⟨hfp, hlp⟩]

/-- C7. For every follower and leader device — a symlink name the scanner
accepts (at least 3 underscore segments after prefix-stripping) made of
ordinary path-component characters — save (select_teleop.py:147-151)
writes the follower path as line 1 and the leader path as line 2, exactly
two newline-terminated lines, overwriting any prior content (write mode,
for every prior fs.config); and the subsequent load (startup.py:79-108)
returns the same two symbolic paths, provided both still exist on disk. -/
theorem c7_save_load_roundtrip (fsym lsym : Str) (fs : FS)
    (hfc : fsym.all cleanChar = true) (hlc : lsym.all cleanChar = true)
    (hfp : (splitOnC '_' (stripTty fsym)).length ≥ 3)
    (hlp : (splitOnC '_' (stripTty lsym)).length ≥ 3)
    (hfe : str "/dev/" ++ fsym ∈ fs.existing)
    (hle : str "/dev/" ++ lsym ∈ fs.existing) :
    (saveSelection fsym lsym fs).config
        = some ((str "/dev/" ++ fsym) ++ '\n' ::
                ((str "/dev/" ++ lsym) ++ ['\n']))
  ∧ splitOnC '\n' (pyStrip ((str "/dev/" ++ fsym) ++ '\n' ::
        ((str "/dev/" ++ lsym) ++ ['\n'])))
        = [str "/dev/" ++ fsym, str "/dev/" ++ lsym]
  ∧ (startupLoadSaved (saveSelection fsym lsym fs)).1.map
        ResolvedPair.follower_port = some (str "/dev/" ++ fsym)
  ∧ (startupLoadSaved (saveSelection fsym lsym fs)).1.map
        ResolvedPair.leader_port = some (str "/dev/" ++ lsym) := by
  have hcontent : (saveSelection fsym lsym fs).config
      = some ((str "/dev/" ++ fsym) ++ '\n' ::
              ((str "/dev/" ++ lsym) ++ ['\n'])) := by
    show some (str "/dev/" ++ fsym ++ ['\n'] ++ str "/dev/" ++ lsym ++ ['\n'])
        = some ((str "/dev/" ++ fsym) ++ '\n' ::
                ((str "/dev/" ++ lsym) ++ ['\n']))
    rw [content_regroup]
  have hsplit2 : splitOnC '\n' (pyStrip ((str "/dev/" ++ fsym) ++ '\n' ::
        ((str "/dev/" ++ lsym) ++ ['\n'])))
      = [str "/dev/" ++ fsym, str "/dev/" ++ lsym] := by
    rw [pyStrip_content fsym lsym hfc hlc, split_content fsym lsym hfc hlc]
  have hres : (startupLoadSaved (saveSelection fsym lsym fs)).1
      = some ⟨str "/dev/" ++ fsym, str "/dev/" ++ lsym,
              (splitOnC '_' (stripTty fsym)).getLastD [],
              List.intercalate (str "_")
                (splitOnC '_' (stripTty fsym)).dropLast.dropLast,
              (splitOnC '_' (stripTty lsym)).getLastD [],
              List.intercalate (str "_")
                (splitOnC '_' (stripTty lsym)).dropLast.dropLast⟩ := by
    unfold startupLoadSaved
    rw [hcontent]
    dsimp only
    rw [hsplit2]
    dsimp only
    rw [pyStrip_dev fsym hfc, pyStrip_dev lsym hlc]
    rw [if_pos (⟨hfe, hle⟩ :
          str "/dev/" ++ fsym ∈ (saveSelection fsym lsym fs).existing ∧
          str "/dev/" ++ lsym ∈ (saveSelection fsym lsym fs).existing)]
    rw [parseSavedPair_dev fsym lsym hfc hlc hfp hlp]
  refine ⟨hcontent, hsplit2, ?_, ?_⟩
  · rw [hres]
    rfl
  · rw [hres]
    rfl

/-- Witness for C7 at a concrete scanner-accepted pair of names both of
which still exist: the saved file has the follower path on line 1 and the
leader path on line 2, and load returns both paths unchanged. -/
theorem c7_witness :
    (saveSelection (str "tty_arm1_follower_so101")
        (str "tty_ctrl1_leader_so101") fsRoundTrip).config
      = some ((str "/dev/" ++ str "tty_arm1_follower_so101") ++ '\n' ::
              ((str "/dev/" ++ str "tty_ctrl1_leader_so101") ++ ['\n']))
  ∧ (startupLoadSaved (saveSelection (str "tty_arm1_follower_so101")
        (str "tty_ctrl1_leader_so101") fsRoundTrip)).1.map
        ResolvedPair.follower_port
      = some (str "/dev/" ++ str "tty_arm1_follower_so101")
  ∧ (startupLoadSaved (saveSelection (str "tty_arm1_follower_so101")
        (str "tty_ctrl1_leader_so101") fsRoundTrip)).1.map
        ResolvedPair.leader_port
      = some (str "/dev/" ++ str "tty_ctrl1_leader_so101") := by
  obtain ⟨h1, -, h3, h4⟩ :=
    c7_save_load_roundtrip (str "tty_arm1_follower_so101")
      (str "tty_ctrl1_leader_so101") fsRoundTrip
      (by decide) (by decide) (by decide) (by decide) (by decide) (by decide)
  exact ⟨h1, h3, h4⟩

end PiLerobot
